import Mathlib

/-!
# Machine health monitor (`OOPS_Project.cpp`)

A shallow embedding of the sensor classes, the `LoggingSensor` decorator, the
`MachineHealthMonitor` and the console loop of `main`, followed by the properties
proved about them.

Modelling conventions.

* A C++ `double` is modelled by an exact rational (`ℚ`): the values are the finite
  ones, and `>` on finite doubles is the order of the rationals.  The arithmetic of
  the three `readData` bodies is therefore exact arithmetic.
* The global effects of the program are made explicit in `World`: the state of
  `rand()`, the lines written to `cout`, and the records appended to
  `machine_logs.txt`.  Opening and writing the log file is assumed to succeed.
* `RAND_MAX` comes from `<cstdlib>` and is a parameter.
* An object of the abstract class `Sensor` is a record of its two virtual methods.
-/

namespace OOPSProject

/-- The lines the program writes to `cout`, one constructor per output statement. -/
inductive Line where
  /-- Text `[ALERT] <type> Sensor exceeds threshold! Reading: <data>, Threshold: <threshold>` -/
  | alert (type : String) (data threshold : ℚ)
  /-- Text `Monitoring Machine Health:` -/
  | monitoringHeader
  /-- Text `<type> Sensor Reading: <data>` -/
  | sensorReading (type : String) (data : ℚ)
  /-- Text `Predictive Maintenance Analysis:` (preceded by a newline) -/
  | analysisHeader
  /-- Text `Prediction: High temperature indicates overheating. Schedule cooling system check.` -/
  | overheating
  /-- Text `Prediction: High pressure may cause hydraulic failure. Inspect hydraulic lines.` -/
  | hydraulicFailure
  /-- Text `Prediction: Excessive vibration detected. Check bearings or engine mounts.` -/
  | excessiveVibration
  /-- Text `Prediction: <type> sensor readings are within normal range.` -/
  | normalRange (type : String)
  /-- Text `Logs saved to machine_logs.txt` -/
  | logsSaved
  /-- The empty line written by `cout << endl`. -/
  | blank
  /-- The row of asterisks. -/
  | stars
  /-- Text `If you want to continue monitoring press 1 else any key: ` (preceded by a newline) -/
  | continuePrompt
  deriving DecidableEq

/-- One line of `machine_logs.txt`, of the form `<type> Sensor: <data>`. -/
structure LogRecord where
  type : String
  data : ℚ
  deriving DecidableEq

/-- The global state the program acts on. -/
structure World where
  /-- The value the `k`-th call of `rand()` returns (fixed by the seed). -/
  randSeq : Nat → Nat
  /-- The number of calls of `rand()` made so far. -/
  randCalls : Nat
  /-- The lines written to `cout` so far, oldest first. -/
  cout : List Line
  /-- The records of `machine_logs.txt`, oldest first. -/
  machine_logs : List LogRecord

/-- The call `rand()`: returns the next value of the sequence. -/
def rand (w : World) : Nat × World :=
  (w.randSeq w.randCalls, { w with randCalls := w.randCalls + 1 })

/-- The statement `cout << ... << endl` for one line. -/
def World.print (w : World) (l : Line) : World :=
  { w with cout := w.cout ++ [l] }

/-- The abstract class `Sensor`: its two pure virtual methods. -/
structure Sensor where
  readData : World → ℚ × World
  getType : String

/-- The class `TemperatureSensor`. -/
def TemperatureSensor (RAND_MAX : Nat) : Sensor where
  readData := fun w =>
    (60.0 + ((rand w).1 : ℚ) / (RAND_MAX : ℚ) * 20, (rand w).2)
  getType := "Temperature"

/-- The class `PressureSensor`. -/
def PressureSensor (RAND_MAX : Nat) : Sensor where
  readData := fun w =>
    (200.0 + ((rand w).1 : ℚ) / (RAND_MAX : ℚ) * 50, (rand w).2)
  getType := "Pressure"

/-- The class `VibrationSensor`. -/
def VibrationSensor (RAND_MAX : Nat) : Sensor where
  readData := fun w =>
    (0.5 + ((rand w).1 : ℚ) / (RAND_MAX : ℚ) * 1.0, (rand w).2)
  getType := "Vibration"

/-- The exceptions the program throws. -/
inductive Exception where
  | invalid_argument (what : String)
  deriving DecidableEq

/-- The static method `SensorFactory::createSensor`. -/
def SensorFactory.createSensor (RAND_MAX : Nat) (type : String) : Except Exception Sensor :=
  if type = "Temperature" then
    .ok (TemperatureSensor RAND_MAX)
  else if type = "Pressure" then
    .ok (PressureSensor RAND_MAX)
  else if type = "Vibration" then
    .ok (VibrationSensor RAND_MAX)
  else
    .error (.invalid_argument "Unknown sensor type")

/-- The method `LoggingSensor::logData` of a decorator around `wrappedSensor`. -/
def LoggingSensor.logData (wrappedSensor : Sensor) (data : ℚ) (w : World) : World :=
  { w with machine_logs := w.machine_logs ++ [⟨wrappedSensor.getType, data⟩] }

/-- The class `LoggingSensor`, constructed from the wrapped sensor and the threshold. -/
def LoggingSensor (sensor : Sensor) (threshold : ℚ) : Sensor where
  readData := fun w =>
    let r := sensor.readData w
    let data := r.1
    let w1 := LoggingSensor.logData sensor data r.2
    let w2 := if data > threshold then w1.print (.alert sensor.getType data threshold) else w1
    (data, w2)
  getType := sensor.getType

/-- The class `MachineHealthMonitor`: the vector of sensors. -/
structure MachineHealthMonitor where
  sensors : List Sensor

/-- A default-constructed monitor. -/
def MachineHealthMonitor.new : MachineHealthMonitor := ⟨[]⟩

/-- The method `addSensor`. -/
def MachineHealthMonitor.addSensor (m : MachineHealthMonitor) (sensor : Sensor) :
    MachineHealthMonitor :=
  { m with sensors := m.sensors ++ [sensor] }

/-- The body of the loop of `monitor`. -/
def MachineHealthMonitor.monitor.body (w : World) (sensor : Sensor) : World :=
  let r := sensor.readData w
  r.2.print (.sensorReading sensor.getType r.1)

/-- The method `monitor`. -/
def MachineHealthMonitor.monitor (m : MachineHealthMonitor) (w : World) : World :=
  m.sensors.foldl MachineHealthMonitor.monitor.body (w.print .monitoringHeader)

/-- The if/else chain of `predictMaintenance`: the line printed for a sensor of the
given type whose reading is `data`. -/
def MachineHealthMonitor.predictMaintenance.prediction (type : String) (data : ℚ) : Line :=
  if type = "Temperature" ∧ data > 75.0 then
    .overheating
  else if type = "Pressure" ∧ data > 240.0 then
    .hydraulicFailure
  else if type = "Vibration" ∧ data > 1.2 then
    .excessiveVibration
  else
    .normalRange type

/-- The body of the loop of `predictMaintenance`. -/
def MachineHealthMonitor.predictMaintenance.body (w : World) (sensor : Sensor) : World :=
  let type := sensor.getType
  let r := sensor.readData w
  r.2.print (MachineHealthMonitor.predictMaintenance.prediction type r.1)

/-- The method `predictMaintenance`. -/
def MachineHealthMonitor.predictMaintenance (m : MachineHealthMonitor) (w : World) : World :=
  m.sensors.foldl MachineHealthMonitor.predictMaintenance.body (w.print .analysisHeader)

/-- The constant `INT_MAX` of `<climits>`, for a 32-bit `int`. -/
def INT_MAX : Nat := 2147483647

/-- How a run of `main` on a finite sequence of operator inputs ends. -/
inductive MainResult where
  /-- The program returned with the given exit code. -/
  | returned (code : Int) (w : World)
  /-- The program waits at `cin >> choice` and the inputs are used up. -/
  | awaitingInput (w : World)
  /-- The increment `i++` overflowed the `int` counter (undefined behaviour). -/
  | counterOverflow (w : World)

/-- The `while (1)` loop of `main`, entered with the counter at `i`; `inputs` are the
integers `cin >> choice` stores, in order (a token that is not a number stores 0). -/
def main.loop (monitor : MachineHealthMonitor) (i : Nat) (inputs : List Int) (w : World) :
    MainResult :=
  if INT_MAX < i + 1 then
    .counterOverflow w
  else
    let w := monitor.monitor w
    let w := monitor.predictMaintenance w
    let w := w.print .logsSaved
    let w := w.print .blank
    let w := w.print .stars
    if i + 1 > 5 then
      let w := w.print .continuePrompt
      match inputs with
      | [] => .awaitingInput w
      | choice :: rest =>
        if choice = 1 then
          let w := monitor.monitor w
          let w := monitor.predictMaintenance w
          main.loop monitor (i + 1) rest w
        else
          .returned 0 w
    else
      main.loop monitor (i + 1) inputs w
termination_by (inputs.length, 6 - i)
decreasing_by
  · simp_wf
    exact Prod.Lex.left _ _ (by simp)
  · simp_wf
    exact Prod.Lex.right _ (by omega)

/-- The three decorated sensors `main` creates and adds to the monitor. -/
def main.setup (RAND_MAX : Nat) : Except Exception MachineHealthMonitor := do
  let monitor := MachineHealthMonitor.new
  let tempSensor := LoggingSensor (← SensorFactory.createSensor RAND_MAX "Temperature") 75.0
  let pressureSensor := LoggingSensor (← SensorFactory.createSensor RAND_MAX "Pressure") 240.0
  let vibrationSensor := LoggingSensor (← SensorFactory.createSensor RAND_MAX "Vibration") 1.2
  let monitor := monitor.addSensor tempSensor
  let monitor := monitor.addSensor pressureSensor
  let monitor := monitor.addSensor vibrationSensor
  return monitor

/-- The function `main`; the seed chosen by `srand(time(0))` is the sequence
`w.randSeq` of the initial world. -/
def main (RAND_MAX : Nat) (inputs : List Int) (w : World) : Except Exception MainResult := do
  let monitor ← main.setup RAND_MAX
  return main.loop monitor 0 inputs w

/-! ## Vocabulary of the properties -/

/-- The three concrete sensor classes that read `rand()`. -/
def BaseSensor (RAND_MAX : Nat) (s : Sensor) : Prop :=
  s = TemperatureSensor RAND_MAX ∨ s = PressureSensor RAND_MAX ∨ s = VibrationSensor RAND_MAX

/-- The sensors that can be built from the classes of the program: a base sensor, or a
`LoggingSensor` around such a sensor. -/
inductive ProgramSensor (RAND_MAX : Nat) : Sensor → Prop where
  | base (s : Sensor) : BaseSensor RAND_MAX s → ProgramSensor RAND_MAX s
  | logging (s : Sensor) (t : ℚ) : ProgramSensor RAND_MAX s →
      ProgramSensor RAND_MAX (LoggingSensor s t)

/-- The world in which `k` more calls of `rand()` have been made. -/
def World.atDraw (w : World) (k : Nat) : World :=
  { w with randCalls := w.randCalls + k }

/-- The world at the start of the program, for the sequence `randSeq` the seed fixes:
no call of `rand()` made, nothing printed, an empty log. -/
def World.initial (randSeq : Nat → Nat) : World :=
  ⟨randSeq, 0, [], []⟩

/-- Alert lines. -/
def Line.isAlert : Line → Bool
  | .alert _ _ _ => true
  | _ => false

/-- Status lines of `monitor`. -/
def Line.isSensorReading : Line → Bool
  | .sensorReading _ _ => true
  | _ => false

/-- Prediction lines of `predictMaintenance`. -/
def Line.isPrediction : Line → Bool
  | .overheating => true
  | .hydraulicFailure => true
  | .excessiveVibration => true
  | .normalRange _ => true
  | _ => false

/-- The occurrences of the line `mark` in an output, counted between the prompts: the
number before the first `continuePrompt`, and the number after each prompt in turn
(up to the next prompt or the end). -/
def marksBetweenPrompts (mark : Line) : List Line → Nat × List Nat
  | [] => (0, [])
  | l :: ls =>
    let r := marksBetweenPrompts mark ls
    if l = .continuePrompt then (0, r.1 :: r.2)
    else if l = mark then (r.1 + 1, r.2)
    else r

/-! ## Properties -/

theorem rand_fst (w : World) : (rand w).1 = w.randSeq w.randCalls := rfl

theorem unit_fraction (RAND_MAX r : Nat) (hM : 0 < RAND_MAX) (hr : r ≤ RAND_MAX) :
    0 ≤ (r : ℚ) / (RAND_MAX : ℚ) ∧ (r : ℚ) / (RAND_MAX : ℚ) ≤ 1 := by
  have hM' : (0 : ℚ) < (RAND_MAX : ℚ) := by exact_mod_cast hM
  have hr' : (r : ℚ) ≤ (RAND_MAX : ℚ) := by exact_mod_cast hr
  exact ⟨by positivity, (div_le_one hM').2 hr'⟩

/-- C1: `createSensor` returns a sensor exactly for the names "Temperature", "Pressure"
and "Vibration", the sensor's `getType` being the requested name; for every other
string, among them "temperature" and the empty string, it throws
`invalid_argument` and returns no sensor. -/
theorem createSensor_contract (RAND_MAX : Nat) (type : String) :
    ((∃ s, SensorFactory.createSensor RAND_MAX type = .ok s) ↔
        type ∈ ["Temperature", "Pressure", "Vibration"]) ∧
    (∀ s, SensorFactory.createSensor RAND_MAX type = .ok s → s.getType = type) ∧
    (type ∉ ["Temperature", "Pressure", "Vibration"] →
        SensorFactory.createSensor RAND_MAX type
          = .error (.invalid_argument "Unknown sensor type")) ∧
    SensorFactory.createSensor RAND_MAX "temperature"
      = .error (.invalid_argument "Unknown sensor type") ∧
    SensorFactory.createSensor RAND_MAX ""
      = .error (.invalid_argument "Unknown sensor type") := by
  refine ⟨?_, ?_, ?_, ?_, ?_⟩
  · unfold SensorFactory.createSensor
    by_cases h1 : type = "Temperature"
    · simp [h1]
    · by_cases h2 : type = "Pressure"
      · simp [h2]
      · by_cases h3 : type = "Vibration"
        · simp [h3]
        · simp [h1, h2, h3]
  · intro s hs
    unfold SensorFactory.createSensor at hs
    by_cases h1 : type = "Temperature"
    · simp [h1] at hs
      subst hs
      simp [h1, TemperatureSensor]
    · by_cases h2 : type = "Pressure"
      · simp [h2] at hs
        subst hs
        simp [h2, PressureSensor]
      · by_cases h3 : type = "Vibration"
        · simp [h3] at hs
          subst hs
          simp [h3, VibrationSensor]
        · simp [h1, h2, h3] at hs
  · intro h
    simp only [List.mem_cons, List.mem_singleton, List.not_mem_nil, or_false, not_or] at h
    simp [SensorFactory.createSensor, h.1, h.2.1, h.2.2]
  · simp [SensorFactory.createSensor]
  · simp [SensorFactory.createSensor]

/-- C6: for a value of `rand()` between 0 and `RAND_MAX`, in exact arithmetic, the
temperature read lies in [60, 80], the pressure in [200, 250] and the vibration in
[0.5, 1.5]; the lower bound is returned when `rand()` is 0 and the upper bound when
it is `RAND_MAX`. -/
theorem readData_range (RAND_MAX : Nat) (w : World) (hM : 0 < RAND_MAX)
    (hr : w.randSeq w.randCalls ≤ RAND_MAX) :
    (60.0 ≤ ((TemperatureSensor RAND_MAX).readData w).1 ∧
      ((TemperatureSensor RAND_MAX).readData w).1 ≤ 80.0) ∧
    (200.0 ≤ ((PressureSensor RAND_MAX).readData w).1 ∧
      ((PressureSensor RAND_MAX).readData w).1 ≤ 250.0) ∧
    (0.5 ≤ ((VibrationSensor RAND_MAX).readData w).1 ∧
      ((VibrationSensor RAND_MAX).readData w).1 ≤ 1.5) ∧
    (w.randSeq w.randCalls = 0 →
      ((TemperatureSensor RAND_MAX).readData w).1 = 60.0 ∧
      ((PressureSensor RAND_MAX).readData w).1 = 200.0 ∧
      ((VibrationSensor RAND_MAX).readData w).1 = 0.5) ∧
    (w.randSeq w.randCalls = RAND_MAX →
      ((TemperatureSensor RAND_MAX).readData w).1 = 80.0 ∧
      ((PressureSensor RAND_MAX).readData w).1 = 250.0 ∧
      ((VibrationSensor RAND_MAX).readData w).1 = 1.5) := by
  obtain ⟨h0, h1⟩ := unit_fraction RAND_MAX _ hM hr
  have hM' : (RAND_MAX : ℚ) ≠ 0 := by exact_mod_cast hM.ne'
  simp only [TemperatureSensor, PressureSensor, VibrationSensor, rand_fst]
  refine ⟨⟨?_, ?_⟩, ⟨?_, ?_⟩, ⟨?_, ?_⟩, ?_, ?_⟩
  · norm_num; linarith
  · norm_num; linarith
  · norm_num; linarith
  · norm_num; linarith
  · norm_num; linarith
  · norm_num; linarith
  · intro hz
    rw [hz]
    norm_num
  · intro hz
    rw [hz, div_self hM']
    norm_num

/-- C2: one call of `LoggingSensor::readData` adds, to what the wrapped read wrote,
exactly one alert line when the reading is greater than the threshold and nothing
when the reading is at most the threshold; a reading of 75.0 against the threshold
75.0 adds nothing; around a base sensor, which writes nothing itself, the call writes
that one alert line or nothing at all. -/
theorem LoggingSensor_alert_iff (RAND_MAX : Nat) (sensor : Sensor) (t : ℚ) (w : World) :
    ((sensor.readData w).1 > t →
      ((LoggingSensor sensor t).readData w).2.cout
        = (sensor.readData w).2.cout ++ [.alert sensor.getType (sensor.readData w).1 t]) ∧
    ((sensor.readData w).1 ≤ t →
      ((LoggingSensor sensor t).readData w).2.cout = (sensor.readData w).2.cout) ∧
    ((sensor.readData w).1 = 75.0 →
      ((LoggingSensor sensor 75.0).readData w).2.cout = (sensor.readData w).2.cout) ∧
    (sensor = TemperatureSensor RAND_MAX ∨ sensor = PressureSensor RAND_MAX ∨
        sensor = VibrationSensor RAND_MAX →
      ((sensor.readData w).1 > t →
        ((LoggingSensor sensor t).readData w).2.cout
          = w.cout ++ [.alert sensor.getType (sensor.readData w).1 t]) ∧
      ((sensor.readData w).1 ≤ t →
        ((LoggingSensor sensor t).readData w).2.cout = w.cout)) := by
  have hgt : (sensor.readData w).1 > t →
      ((LoggingSensor sensor t).readData w).2.cout
        = (sensor.readData w).2.cout ++ [.alert sensor.getType (sensor.readData w).1 t] := by
    intro h
    simp [LoggingSensor, LoggingSensor.logData, World.print, h]
  have hle : (sensor.readData w).1 ≤ t →
      ((LoggingSensor sensor t).readData w).2.cout = (sensor.readData w).2.cout := by
    intro h
    simp [LoggingSensor, LoggingSensor.logData, World.print, not_lt.2 h]
  refine ⟨hgt, hle, ?_, ?_⟩
  · intro h
    simp [LoggingSensor, LoggingSensor.logData, World.print, h]
  · intro hb
    have hq : (sensor.readData w).2.cout = w.cout := by
      rcases hb with h | h | h <;> subst h <;> rfl
    exact ⟨fun h => by rw [hgt h, hq], fun h => by rw [hle h, hq]⟩

/-- C3: one call of `LoggingSensor::readData` appends exactly one record, the wrapped
sensor's type with the reading just drawn, to the log as the wrapped read left it,
whatever the threshold; around one of the three base sensors the log is the log
before the call followed by that one record. -/
theorem LoggingSensor_logs_once (RAND_MAX : Nat) (sensor : Sensor) (t : ℚ) (w : World) :
    ((LoggingSensor sensor t).readData w).2.machine_logs
      = (sensor.readData w).2.machine_logs ++ [⟨sensor.getType, (sensor.readData w).1⟩] ∧
    (sensor = TemperatureSensor RAND_MAX ∨ sensor = PressureSensor RAND_MAX ∨
        sensor = VibrationSensor RAND_MAX →
      ((LoggingSensor sensor t).readData w).2.machine_logs
        = w.machine_logs ++ [⟨sensor.getType, (sensor.readData w).1⟩]) := by
  have key : ((LoggingSensor sensor t).readData w).2.machine_logs
      = (sensor.readData w).2.machine_logs ++ [⟨sensor.getType, (sensor.readData w).1⟩] := by
    by_cases h : (sensor.readData w).1 > t
    · simp [LoggingSensor, LoggingSensor.logData, World.print, h]
    · simp [LoggingSensor, LoggingSensor.logData, World.print, h]
  refine ⟨key, ?_⟩
  rintro (h | h | h)
  · rw [key]; subst h; simp [TemperatureSensor, rand]
  · rw [key]; subst h; simp [PressureSensor, rand]
  · rw [key]; subst h; simp [VibrationSensor, rand]

/-- C4: a `LoggingSensor` has the type of the sensor it wraps; its `readData` returns
the value of one read of the wrapped sensor, in the world that read leaves, extended
only by lines on `cout` and records in the log; so the value lies in every interval
the wrapped sensor's reading lies in, whatever the threshold. -/
theorem LoggingSensor_transparent (sensor : Sensor) (t : ℚ) (w : World) :
    (LoggingSensor sensor t).getType = sensor.getType ∧
    ((LoggingSensor sensor t).readData w).1 = (sensor.readData w).1 ∧
    (∃ lines records, ((LoggingSensor sensor t).readData w).2
        = { (sensor.readData w).2 with
              cout := (sensor.readData w).2.cout ++ lines,
              machine_logs := (sensor.readData w).2.machine_logs ++ records }) ∧
    (∀ lo hi : ℚ, lo ≤ (sensor.readData w).1 ∧ (sensor.readData w).1 ≤ hi →
      lo ≤ ((LoggingSensor sensor t).readData w).1 ∧
        ((LoggingSensor sensor t).readData w).1 ≤ hi) := by
  refine ⟨rfl, rfl, ?_, fun lo hi h => h⟩
  by_cases h : (sensor.readData w).1 > t
  · exact ⟨[.alert sensor.getType (sensor.readData w).1 t],
      [⟨sensor.getType, (sensor.readData w).1⟩],
      by simp [LoggingSensor, LoggingSensor.logData, World.print, h]⟩
  · exact ⟨[], [⟨sensor.getType, (sensor.readData w).1⟩],
      by simp [LoggingSensor, LoggingSensor.logData, World.print, h]⟩

theorem prediction_cases (k : String) (v : ℚ) :
    (MachineHealthMonitor.predictMaintenance.prediction k v = .overheating ↔
      k = "Temperature" ∧ v > 75.0) ∧
    (MachineHealthMonitor.predictMaintenance.prediction k v = .hydraulicFailure ↔
      k = "Pressure" ∧ v > 240.0) ∧
    (MachineHealthMonitor.predictMaintenance.prediction k v = .excessiveVibration ↔
      k = "Vibration" ∧ v > 1.2) ∧
    (MachineHealthMonitor.predictMaintenance.prediction k v = .normalRange k ↔
      ¬ (k = "Temperature" ∧ v > 75.0) ∧ ¬ (k = "Pressure" ∧ v > 240.0) ∧
        ¬ (k = "Vibration" ∧ v > 1.2)) := by
  unfold MachineHealthMonitor.predictMaintenance.prediction
  by_cases h1 : k = "Temperature" ∧ v > 75.0
  · have hk := h1.1
    subst hk
    simp [h1]
  · by_cases h2 : k = "Pressure" ∧ v > 240.0
    · have hk := h2.1
      subst hk
      simp [h2]
    · by_cases h3 : k = "Vibration" ∧ v > 1.2
      · have hk := h3.1
        subst hk
        simp [h3]
      · simp only [if_neg h1, if_neg h2, if_neg h3]
        simp [h1, h2, h3]

theorem BaseSensor.read (RAND_MAX : Nat) (s : Sensor) (h : BaseSensor RAND_MAX s) (w : World) :
    (s.readData w).2 = { w with randCalls := w.randCalls + 1 } ∧
    ∀ w' : World, w.randSeq = w'.randSeq → w.randCalls = w'.randCalls →
      (s.readData w).1 = (s.readData w').1 := by
  rcases h with h | h | h <;> subst h
  · refine ⟨rfl, fun w' h1 h2 => ?_⟩
    simp [TemperatureSensor, rand, h1, h2]
  · refine ⟨rfl, fun w' h1 h2 => ?_⟩
    simp [PressureSensor, rand, h1, h2]
  · refine ⟨rfl, fun w' h1 h2 => ?_⟩
    simp [VibrationSensor, rand, h1, h2]

theorem LoggingSensor.read_world (s : Sensor) (t : ℚ) (w : World) :
    ∃ lines, (∀ l ∈ lines, Line.isAlert l = true) ∧
      ((LoggingSensor s t).readData w).2
        = { (s.readData w).2 with
              cout := (s.readData w).2.cout ++ lines,
              machine_logs := (s.readData w).2.machine_logs ++
                [⟨s.getType, (s.readData w).1⟩] } := by
  by_cases h : (s.readData w).1 > t
  · exact ⟨[.alert s.getType (s.readData w).1 t], by simp [Line.isAlert],
      by simp [LoggingSensor, LoggingSensor.logData, World.print, h]⟩
  · exact ⟨[], by simp, by simp [LoggingSensor, LoggingSensor.logData, World.print, h]⟩

theorem ProgramSensor.read_frame (RAND_MAX : Nat) (s : Sensor) (h : ProgramSensor RAND_MAX s)
    (w : World) :
    ∃ lines records, (∀ l ∈ lines, Line.isAlert l = true) ∧
      (s.readData w).2
        = { w with randCalls := w.randCalls + 1, cout := w.cout ++ lines,
                   machine_logs := w.machine_logs ++ records } := by
  induction h with
  | base s hb =>
    exact ⟨[], [], by simp, by rw [(BaseSensor.read RAND_MAX s hb w).1]; simp⟩
  | logging s t _ ih =>
    obtain ⟨lines, records, hl, hw⟩ := ih
    obtain ⟨lines', hl', hw'⟩ := LoggingSensor.read_world s t w
    refine ⟨lines ++ lines', records ++ [⟨s.getType, (s.readData w).1⟩], ?_, ?_⟩
    · intro l hmem
      rcases List.mem_append.1 hmem with h1 | h1
      · exact hl l h1
      · exact hl' l h1
    · rw [hw', hw]
      simp [List.append_assoc]

theorem ProgramSensor.read_value (RAND_MAX : Nat) (s : Sensor) (h : ProgramSensor RAND_MAX s)
    (w w' : World) (h1 : w.randSeq = w'.randSeq) (h2 : w.randCalls = w'.randCalls) :
    (s.readData w).1 = (s.readData w').1 := by
  induction h with
  | base s hb => exact (BaseSensor.read RAND_MAX s hb w).2 w' h1 h2
  | logging s t _ ih => exact ih

theorem filter_alerts_eq_nil (isF : Line → Bool)
    (hA : ∀ l, Line.isAlert l = true → isF l = false) (lines : List Line)
    (hl : ∀ l ∈ lines, Line.isAlert l = true) : lines.filter isF = [] := by
  rw [List.filter_eq_nil_iff]
  intro l hmem
  simp [hA l (hl l hmem)]

/-- One sweep over the sensors, each read followed by the line `f type data`: the
shape shared by the loops of `monitor` and `predictMaintenance`. -/
theorem sweep_frame (RAND_MAX : Nat) (f : String → ℚ → Line) (isF : Line → Bool)
    (hf : ∀ k v, isF (f k v) = true) (hA : ∀ l, Line.isAlert l = true → isF l = false)
    (w0 : World) (ss : List Sensor) :
    ∀ (k : Nat) (w : World), (∀ s ∈ ss, ProgramSensor RAND_MAX s) →
      w.randSeq = w0.randSeq → w.randCalls = w0.randCalls + k →
      ∃ out records,
        ss.foldl (fun w s => (s.readData w).2.print (f s.getType (s.readData w).1)) w
          = { w with randCalls := w.randCalls + ss.length, cout := w.cout ++ out,
                     machine_logs := w.machine_logs ++ records } ∧
        (∀ l ∈ out, Line.isAlert l = true ∨ isF l = true) ∧
        out.filter isF
          = (ss.enumFrom k).map
              (fun p => f p.2.getType (p.2.readData (w0.atDraw p.1)).1) := by
  induction ss with
  | nil =>
    intro k w _ _ _
    exact ⟨[], [], by simp, by simp, by simp⟩
  | cons s ss ih =>
    intro k w hs h1 h2
    obtain ⟨lines, records, hl, hw⟩ :=
      ProgramSensor.read_frame RAND_MAX s (hs s (List.mem_cons_self _ _)) w
    have hv : (s.readData w).1 = (s.readData (w0.atDraw k)).1 :=
      ProgramSensor.read_value RAND_MAX s (hs s (List.mem_cons_self _ _)) w (w0.atDraw k)
        (by simp [World.atDraw, h1]) (by simp [World.atDraw, h2])
    obtain ⟨out', records', he, hall, hfil⟩ :=
      ih (k + 1) ((s.readData w).2.print (f s.getType (s.readData w).1))
        (fun s' hs' => hs s' (List.mem_cons_of_mem _ hs'))
        (by rw [hw]; simpa [World.print] using h1)
        (by rw [hw]; simp [World.print, h2]; omega)
    refine ⟨lines ++ [f s.getType (s.readData w).1] ++ out', records ++ records', ?_, ?_, ?_⟩
    · rw [List.foldl_cons, he, hw]
      simp [World.print, List.append_assoc]
      omega
    · intro l hmem
      simp only [List.mem_append, List.mem_singleton] at hmem
      rcases hmem with (h | h) | h
      · exact Or.inl (hl l h)
      · exact Or.inr (by rw [h]; exact hf _ _)
      · exact hall l h
    · rw [List.filter_append, List.filter_append, filter_alerts_eq_nil isF hA lines hl, hfil]
      simp [List.enumFrom, hf, hv]

theorem addSensor_foldl (ss : List Sensor) :
    ∀ m : MachineHealthMonitor,
      (ss.foldl MachineHealthMonitor.addSensor m).sensors = m.sensors ++ ss := by
  induction ss with
  | nil => intro m; simp
  | cons s ss ih =>
    intro m
    rw [List.foldl_cons, ih]
    simp [MachineHealthMonitor.addSensor]

theorem monitor_sweep (RAND_MAX : Nat) (ss : List Sensor)
    (hs : ∀ s ∈ ss, ProgramSensor RAND_MAX s) (w0 : World) (k : Nat) (w : World)
    (h1 : w.randSeq = w0.randSeq) (h2 : w.randCalls = w0.randCalls + k) :
    ∃ out records,
      MachineHealthMonitor.monitor ⟨ss⟩ w
        = { w with randCalls := w.randCalls + ss.length,
                   cout := w.cout ++ [.monitoringHeader] ++ out,
                   machine_logs := w.machine_logs ++ records } ∧
      (∀ l ∈ out, Line.isAlert l = true ∨ Line.isSensorReading l = true) ∧
      out.filter Line.isSensorReading
        = (ss.enumFrom k).map
            (fun p => .sensorReading p.2.getType (p.2.readData (w0.atDraw p.1)).1) := by
  obtain ⟨out, records, he, hall, hfil⟩ :=
    sweep_frame RAND_MAX Line.sensorReading Line.isSensorReading (fun _ _ => rfl)
      (fun l hl => by cases l <;> simp_all [Line.isAlert, Line.isSensorReading])
      w0 ss k (w.print .monitoringHeader) hs h1 h2
  refine ⟨out, records, ?_, hall, hfil⟩
  change ss.foldl (fun w s => (s.readData w).2.print (.sensorReading s.getType (s.readData w).1))
    (w.print .monitoringHeader) = _
  rw [he]
  simp [World.print]

theorem predict_sweep (RAND_MAX : Nat) (ss : List Sensor)
    (hs : ∀ s ∈ ss, ProgramSensor RAND_MAX s) (w0 : World) (k : Nat) (w : World)
    (h1 : w.randSeq = w0.randSeq) (h2 : w.randCalls = w0.randCalls + k) :
    ∃ out records,
      MachineHealthMonitor.predictMaintenance ⟨ss⟩ w
        = { w with randCalls := w.randCalls + ss.length,
                   cout := w.cout ++ [.analysisHeader] ++ out,
                   machine_logs := w.machine_logs ++ records } ∧
      (∀ l ∈ out, Line.isAlert l = true ∨ Line.isPrediction l = true) ∧
      out.filter Line.isPrediction
        = (ss.enumFrom k).map
            (fun p => MachineHealthMonitor.predictMaintenance.prediction p.2.getType
              (p.2.readData (w0.atDraw p.1)).1) := by
  have hp : ∀ k v, Line.isPrediction
      (MachineHealthMonitor.predictMaintenance.prediction k v) = true := by
    intro k v
    unfold MachineHealthMonitor.predictMaintenance.prediction
    split_ifs <;> rfl
  obtain ⟨out, records, he, hall, hfil⟩ :=
    sweep_frame RAND_MAX MachineHealthMonitor.predictMaintenance.prediction Line.isPrediction hp
      (fun l hl => by cases l <;> simp_all [Line.isAlert, Line.isPrediction])
      w0 ss k (w.print .analysisHeader) hs h1 h2
  refine ⟨out, records, ?_, hall, hfil⟩
  change ss.foldl (fun w s => (s.readData w).2.print
      (MachineHealthMonitor.predictMaintenance.prediction s.getType (s.readData w).1))
    (w.print .analysisHeader) = _
  rw [he]
  simp [World.print]

theorem build_eq (ss : List Sensor) :
    ss.foldl MachineHealthMonitor.addSensor MachineHealthMonitor.new = ⟨ss⟩ := by
  have h := addSensor_foldl ss MachineHealthMonitor.new
  cases hfold : ss.foldl MachineHealthMonitor.addSensor MachineHealthMonitor.new with
  | mk l =>
    rw [hfold] at h
    simpa [MachineHealthMonitor.new] using h

theorem monitor_snoc (pre : List Sensor) (s : Sensor) (w : World) :
    MachineHealthMonitor.monitor ⟨pre ++ [s]⟩ w
      = (s.readData (MachineHealthMonitor.monitor ⟨pre⟩ w)).2.print
          (.sensorReading s.getType (s.readData (MachineHealthMonitor.monitor ⟨pre⟩ w)).1) := by
  simp [MachineHealthMonitor.monitor, MachineHealthMonitor.monitor.body, List.foldl_append]

theorem predict_snoc (pre : List Sensor) (s : Sensor) (w : World) :
    MachineHealthMonitor.predictMaintenance ⟨pre ++ [s]⟩ w
      = (s.readData (MachineHealthMonitor.predictMaintenance ⟨pre⟩ w)).2.print
          (MachineHealthMonitor.predictMaintenance.prediction s.getType
            (s.readData (MachineHealthMonitor.predictMaintenance ⟨pre⟩ w)).1) := by
  simp [MachineHealthMonitor.predictMaintenance, MachineHealthMonitor.predictMaintenance.body,
    List.foldl_append]

/-- C5: for a sensor of type `k` whose reading is `v`, `predictMaintenance` prints
exactly one prediction after the read: overheating iff `k` is "Temperature" and
`v > 75.0`, hydraulic failure iff `k` is "Pressure" and `v > 240.0`, excessive
vibration iff `k` is "Vibration" and `v > 1.2`, and "within normal range" in every
other case; Temperature 80.0 is overheating, Temperature 70.0 and 75.0 are normal,
Pressure 245.0 is hydraulic failure, Vibration 1.0 is normal.  This holds on a monitor
of any length and for any sensors: on no sensor the method prints its header only, and
on `pre` followed by `s` it does what it does on `pre`, then reads `s` once and prints
the one prediction for that reading; on sensors built from the program's classes the
predictions printed are exactly one per sensor, in order. -/
theorem predictMaintenance_rule :
    (∀ (sensor : Sensor) (w : World),
      MachineHealthMonitor.predictMaintenance.body w sensor
        = (sensor.readData w).2.print
            (MachineHealthMonitor.predictMaintenance.prediction sensor.getType
              (sensor.readData w).1)) ∧
    (∀ (sensor : Sensor) (w : World),
      (MachineHealthMonitor.predictMaintenance ⟨[sensor]⟩ w).cout
        = (sensor.readData (w.print .analysisHeader)).2.cout ++
            [MachineHealthMonitor.predictMaintenance.prediction sensor.getType
              (sensor.readData (w.print .analysisHeader)).1]) ∧
    (∀ w : World,
      MachineHealthMonitor.predictMaintenance ⟨[]⟩ w = w.print .analysisHeader) ∧
    (∀ (pre : List Sensor) (s : Sensor) (w : World),
      MachineHealthMonitor.predictMaintenance ⟨pre ++ [s]⟩ w
        = (s.readData (MachineHealthMonitor.predictMaintenance ⟨pre⟩ w)).2.print
            (MachineHealthMonitor.predictMaintenance.prediction s.getType
              (s.readData (MachineHealthMonitor.predictMaintenance ⟨pre⟩ w)).1)) ∧
    (∀ (RAND_MAX : Nat) (ss : List Sensor) (w : World),
      (∀ s ∈ ss, ProgramSensor RAND_MAX s) →
      ∃ out,
        (MachineHealthMonitor.predictMaintenance ⟨ss⟩ w).cout
          = w.cout ++ [.analysisHeader] ++ out ∧
        (∀ l ∈ out, Line.isAlert l = true ∨ Line.isPrediction l = true) ∧
        (out.filter Line.isPrediction).length = ss.length ∧
        out.filter Line.isPrediction
          = ss.enum.map
              (fun p => MachineHealthMonitor.predictMaintenance.prediction p.2.getType
                (p.2.readData (w.atDraw p.1)).1)) ∧
    (∀ (k : String) (v : ℚ),
      (MachineHealthMonitor.predictMaintenance.prediction k v = .overheating ↔
        k = "Temperature" ∧ v > 75.0) ∧
      (MachineHealthMonitor.predictMaintenance.prediction k v = .hydraulicFailure ↔
        k = "Pressure" ∧ v > 240.0) ∧
      (MachineHealthMonitor.predictMaintenance.prediction k v = .excessiveVibration ↔
        k = "Vibration" ∧ v > 1.2) ∧
      (MachineHealthMonitor.predictMaintenance.prediction k v = .normalRange k ↔
        ¬ (k = "Temperature" ∧ v > 75.0) ∧ ¬ (k = "Pressure" ∧ v > 240.0) ∧
          ¬ (k = "Vibration" ∧ v > 1.2))) ∧
    MachineHealthMonitor.predictMaintenance.prediction "Temperature" 80.0 = .overheating ∧
    MachineHealthMonitor.predictMaintenance.prediction "Temperature" 70.0
      = .normalRange "Temperature" ∧
    MachineHealthMonitor.predictMaintenance.prediction "Temperature" 75.0
      = .normalRange "Temperature" ∧
    MachineHealthMonitor.predictMaintenance.prediction "Pressure" 245.0 = .hydraulicFailure ∧
    MachineHealthMonitor.predictMaintenance.prediction "Vibration" 1.0
      = .normalRange "Vibration" := by
  refine ⟨fun _ _ => rfl, fun _ _ => ?_, fun _ => rfl, predict_snoc, ?_, prediction_cases,
    ?_, ?_, ?_, ?_, ?_⟩
  · simp [MachineHealthMonitor.predictMaintenance,
      MachineHealthMonitor.predictMaintenance.body, World.print]
  · intro RAND_MAX ss w hs
    obtain ⟨out, _, he, hall, hfil⟩ := predict_sweep RAND_MAX ss hs w 0 w rfl rfl
    exact ⟨out, by rw [he], hall, by rw [hfil]; simp, hfil⟩
  · exact ((prediction_cases _ _).1).2 ⟨rfl, by norm_num⟩
  · exact ((prediction_cases _ _).2.2.2).2 ⟨by norm_num, by decide, by decide⟩
  · exact ((prediction_cases _ _).2.2.2).2 ⟨by norm_num, by decide, by decide⟩
  · exact ((prediction_cases _ _).2.1).2 ⟨rfl, by norm_num⟩
  · exact ((prediction_cases _ _).2.2.2).2 ⟨by decide, by decide, by norm_num⟩

/-- C7: for every sequence of `addSensor` calls on a fresh monitor, whatever the
sensors, the monitor holds exactly the sensors added, in the order of the calls,
repetitions included (each call appends its sensor).  `monitor` and
`predictMaintenance` print their header and then go through the sensors in that order:
on the sensors `pre` followed by `s` they do what they do on `pre`, then read `s`
once and print its status line (its prediction).  On sensors built from the program's
classes each method calls `rand()` once per sensor and prints `n` status lines
(predictions), the `i`-th carrying the type of the `i`-th sensor and its reading of
the `i`-th next value of `rand()`. -/
theorem monitor_in_insertion_order (RAND_MAX : Nat) (ss : List Sensor) (w : World) :
    (ss.foldl MachineHealthMonitor.addSensor MachineHealthMonitor.new).sensors = ss ∧
    (∀ (m : MachineHealthMonitor) (s : Sensor), (m.addSensor s).sensors = m.sensors ++ [s]) ∧
    (([] : List Sensor).foldl MachineHealthMonitor.addSensor
        MachineHealthMonitor.new).monitor w = w.print .monitoringHeader ∧
    (∀ (pre : List Sensor) (s : Sensor),
      ((pre ++ [s]).foldl MachineHealthMonitor.addSensor MachineHealthMonitor.new).monitor w
        = (s.readData
            ((pre.foldl MachineHealthMonitor.addSensor
              MachineHealthMonitor.new).monitor w)).2.print
            (.sensorReading s.getType
              (s.readData
                ((pre.foldl MachineHealthMonitor.addSensor
                  MachineHealthMonitor.new).monitor w)).1)) ∧
    (([] : List Sensor).foldl MachineHealthMonitor.addSensor
        MachineHealthMonitor.new).predictMaintenance w = w.print .analysisHeader ∧
    (∀ (pre : List Sensor) (s : Sensor),
      ((pre ++ [s]).foldl MachineHealthMonitor.addSensor
          MachineHealthMonitor.new).predictMaintenance w
        = (s.readData
            ((pre.foldl MachineHealthMonitor.addSensor
              MachineHealthMonitor.new).predictMaintenance w)).2.print
            (MachineHealthMonitor.predictMaintenance.prediction s.getType
              (s.readData
                ((pre.foldl MachineHealthMonitor.addSensor
                  MachineHealthMonitor.new).predictMaintenance w)).1)) ∧
    ((∀ s ∈ ss, ProgramSensor RAND_MAX s) →
      (∃ out,
        ((ss.foldl MachineHealthMonitor.addSensor MachineHealthMonitor.new).monitor w).cout
          = w.cout ++ [.monitoringHeader] ++ out ∧
        (∀ l ∈ out, Line.isAlert l = true ∨ Line.isSensorReading l = true) ∧
        (out.filter Line.isSensorReading).length = ss.length ∧
        out.filter Line.isSensorReading
          = ss.enum.map
              (fun p => .sensorReading p.2.getType (p.2.readData (w.atDraw p.1)).1)) ∧
      ((ss.foldl MachineHealthMonitor.addSensor MachineHealthMonitor.new).monitor w).randCalls
        = w.randCalls + ss.length ∧
      (∃ out,
        ((ss.foldl MachineHealthMonitor.addSensor
            MachineHealthMonitor.new).predictMaintenance w).cout
          = w.cout ++ [.analysisHeader] ++ out ∧
        (∀ l ∈ out, Line.isAlert l = true ∨ Line.isPrediction l = true) ∧
        (out.filter Line.isPrediction).length = ss.length ∧
        out.filter Line.isPrediction
          = ss.enum.map
              (fun p => MachineHealthMonitor.predictMaintenance.prediction p.2.getType
                (p.2.readData (w.atDraw p.1)).1)) ∧
      ((ss.foldl MachineHealthMonitor.addSensor
          MachineHealthMonitor.new).predictMaintenance w).randCalls
        = w.randCalls + ss.length) := by
  refine ⟨by rw [build_eq], fun _ _ => rfl, rfl, ?_, rfl, ?_, ?_⟩
  · intro pre s
    rw [build_eq, build_eq]
    exact monitor_snoc pre s w
  · intro pre s
    rw [build_eq, build_eq]
    exact predict_snoc pre s w
  · intro hs
    rw [build_eq]
    obtain ⟨out1, _, he1, hall1, hfil1⟩ := monitor_sweep RAND_MAX ss hs w 0 w rfl rfl
    obtain ⟨out2, _, he2, hall2, hfil2⟩ := predict_sweep RAND_MAX ss hs w 0 w rfl rfl
    exact ⟨⟨out1, by rw [he1], hall1, by rw [hfil1]; simp, hfil1⟩, by rw [he1],
      ⟨out2, by rw [he2], hall2, by rw [hfil2]; simp, hfil2⟩, by rw [he2]⟩

theorem main_setup (RAND_MAX : Nat) :
    main.setup RAND_MAX
      = .ok ⟨[LoggingSensor (TemperatureSensor RAND_MAX) 75.0,
              LoggingSensor (PressureSensor RAND_MAX) 240.0,
              LoggingSensor (VibrationSensor RAND_MAX) 1.2]⟩ := by
  simp [main.setup, SensorFactory.createSensor, MachineHealthMonitor.addSensor,
    MachineHealthMonitor.new, bind, Except.bind, pure, Except.pure]

theorem main_sensors_program (RAND_MAX : Nat) :
    ∀ s ∈ [LoggingSensor (TemperatureSensor RAND_MAX) 75.0,
            LoggingSensor (PressureSensor RAND_MAX) 240.0,
            LoggingSensor (VibrationSensor RAND_MAX) 1.2],
      ProgramSensor RAND_MAX s := by
  intro s hs
  simp only [List.mem_cons, List.mem_singleton, List.not_mem_nil, or_false] at hs
  rcases hs with h | h | h <;> subst h
  · exact .logging _ _ (.base _ (Or.inl rfl))
  · exact .logging _ _ (.base _ (Or.inr (Or.inl rfl)))
  · exact .logging _ _ (.base _ (Or.inr (Or.inr rfl)))

theorem marks_append (mark : Line) (a b : List Line) (ha : Line.continuePrompt ∉ a) :
    marksBetweenPrompts mark (a ++ b)
      = ((marksBetweenPrompts mark b).1 + a.count mark, (marksBetweenPrompts mark b).2) := by
  induction a with
  | nil => simp
  | cons l a ih =>
    have hl : l ≠ .continuePrompt := fun h => ha (by simp [h])
    have ha' : Line.continuePrompt ∉ a := fun h => ha (List.mem_cons_of_mem _ h)
    rw [List.cons_append, marksBetweenPrompts, ih ha']
    by_cases hm : l = mark
    · subst hm
      simp [hl]
      omega
    · simp [hl, hm, List.count_cons, beq_iff_eq]

theorem marks_prompt (mark : Line) (b : List Line) :
    marksBetweenPrompts mark (.continuePrompt :: b)
      = (0, (marksBetweenPrompts mark b).1 :: (marksBetweenPrompts mark b).2) := by
  simp [marksBetweenPrompts]

theorem loop_warm (m : MachineHealthMonitor) (i : Nat) (inputs : List Int) (w : World)
    (h1 : i + 1 ≤ INT_MAX) (h2 : i + 1 ≤ 5) :
    main.loop m i inputs w
      = main.loop m (i + 1) inputs
          ((((m.predictMaintenance (m.monitor w)).print .logsSaved).print .blank).print
            .stars) := by
  rw [main.loop]
  simp [not_lt.2 h1, not_lt.2 h2]

theorem loop_block (m : MachineHealthMonitor) (i : Nat) (w : World)
    (h1 : i + 1 ≤ INT_MAX) (h2 : 5 < i + 1) :
    main.loop m i [] w
      = .awaitingInput
          (((((m.predictMaintenance (m.monitor w)).print .logsSaved).print .blank).print
            .stars).print .continuePrompt) := by
  rw [main.loop]
  simp [not_lt.2 h1, h2]

theorem loop_stop (m : MachineHealthMonitor) (i : Nat) (c : Int) (rest : List Int) (w : World)
    (h1 : i + 1 ≤ INT_MAX) (h2 : 5 < i + 1) (hc : c ≠ 1) :
    main.loop m i (c :: rest) w
      = .returned 0
          (((((m.predictMaintenance (m.monitor w)).print .logsSaved).print .blank).print
            .stars).print .continuePrompt) := by
  rw [main.loop]
  simp [not_lt.2 h1, h2, hc]

theorem loop_continue (m : MachineHealthMonitor) (i : Nat) (rest : List Int) (w : World)
    (h1 : i + 1 ≤ INT_MAX) (h2 : 5 < i + 1) :
    main.loop m i (1 :: rest) w
      = main.loop m (i + 1) rest
          (m.predictMaintenance (m.monitor
            (((((m.predictMaintenance (m.monitor w)).print .logsSaved).print .blank).print
              .stars).print .continuePrompt))) := by
  rw [main.loop]
  simp [not_lt.2 h1, h2]

theorem sweep_line_ne (l : Line)
    (h : Line.isAlert l = true ∨ Line.isSensorReading l = true ∨ Line.isPrediction l = true) :
    l ≠ .continuePrompt ∧ l ≠ .monitoringHeader ∧ l ≠ .analysisHeader := by
  cases l <;> simp_all [Line.isAlert, Line.isSensorReading, Line.isPrediction]

/-- The output of one cycle: no prompt, one header of `monitor`, one header of
`predictMaintenance`. -/
theorem cycle_cout (RAND_MAX : Nat) (ss : List Sensor)
    (hs : ∀ s ∈ ss, ProgramSensor RAND_MAX s) (w : World) :
    ∃ out,
      (MachineHealthMonitor.predictMaintenance ⟨ss⟩
          (MachineHealthMonitor.monitor ⟨ss⟩ w)).cout = w.cout ++ out ∧
      Line.continuePrompt ∉ out ∧
      ∀ mark, mark = Line.monitoringHeader ∨ mark = Line.analysisHeader →
        out.count mark = 1 := by
  obtain ⟨out1, r1, he1, hall1, -⟩ := monitor_sweep RAND_MAX ss hs w 0 w rfl rfl
  obtain ⟨out2, r2, he2, hall2, -⟩ :=
    predict_sweep RAND_MAX ss hs w ss.length (MachineHealthMonitor.monitor ⟨ss⟩ w)
      (by rw [he1]) (by rw [he1])
  have n1 : ∀ l ∈ out1, l ≠ .continuePrompt ∧ l ≠ .monitoringHeader ∧ l ≠ .analysisHeader :=
    fun l hl => sweep_line_ne l ((hall1 l hl).elim Or.inl (fun h => Or.inr (Or.inl h)))
  have n2 : ∀ l ∈ out2, l ≠ .continuePrompt ∧ l ≠ .monitoringHeader ∧ l ≠ .analysisHeader :=
    fun l hl => sweep_line_ne l ((hall2 l hl).elim Or.inl (fun h => Or.inr (Or.inr h)))
  refine ⟨[.monitoringHeader] ++ out1 ++ [.analysisHeader] ++ out2, ?_, ?_, ?_⟩
  · rw [he2, he1]
    simp
  · intro hmem
    simp only [List.mem_append, List.mem_singleton] at hmem
    rcases hmem with ((h | h) | h) | h
    · exact absurd h (by decide)
    · exact (n1 _ h).1 rfl
    · exact absurd h (by decide)
    · exact (n2 _ h).1 rfl
  · intro mark hmark
    have c1 : out1.count mark = 0 := by
      rw [List.count_eq_zero]
      intro hmem
      rcases hmark with h | h <;> subst h
      · exact (n1 _ hmem).2.1 rfl
      · exact (n1 _ hmem).2.2 rfl
    have c2 : out2.count mark = 0 := by
      rw [List.count_eq_zero]
      intro hmem
      rcases hmark with h | h <;> subst h
      · exact (n2 _ hmem).2.1 rfl
      · exact (n2 _ hmem).2.2 rfl
    rw [List.count_append, List.count_append, List.count_append, c1, c2]
    rcases hmark with h | h <;> subst h <;> decide

/-- The output of one cycle and the three lines that follow it in the loop. -/
theorem round_cout (RAND_MAX : Nat) (ss : List Sensor)
    (hs : ∀ s ∈ ss, ProgramSensor RAND_MAX s) (w : World) :
    ∃ out,
      ((((MachineHealthMonitor.predictMaintenance ⟨ss⟩
          (MachineHealthMonitor.monitor ⟨ss⟩ w)).print .logsSaved).print .blank).print
            .stars).cout = w.cout ++ out ∧
      Line.continuePrompt ∉ out ∧
      ∀ mark, mark = Line.monitoringHeader ∨ mark = Line.analysisHeader →
        out.count mark = 1 := by
  obtain ⟨out, he, hp, hc⟩ := cycle_cout RAND_MAX ss hs w
  refine ⟨out ++ [.logsSaved, .blank, .stars], ?_, ?_, ?_⟩
  · simp [World.print, he]
  · intro hmem
    rcases List.mem_append.1 hmem with h | h
    · exact hp h
    · exact absurd h (by decide)
  · intro mark hmark
    rw [List.count_append, hc mark hmark]
    rcases hmark with h | h <;> subst h <;> decide

/-- The loop once the counter has reached 5: every iteration prompts. -/
theorem loop_steady (RAND_MAX : Nat) (ss : List Sensor)
    (hs : ∀ s ∈ ss, ProgramSensor RAND_MAX s) (tail : List Int)
    (ht : ∀ rest, tail ≠ 1 :: rest) :
    ∀ (k i : Nat) (w : World), 5 ≤ i → i + k + 1 ≤ INT_MAX →
      ∃ out w',
        (tail = [] →
          main.loop ⟨ss⟩ i (List.replicate k 1 ++ tail) w = .awaitingInput w') ∧
        (tail ≠ [] →
          main.loop ⟨ss⟩ i (List.replicate k 1 ++ tail) w = .returned 0 w') ∧
        w'.cout = w.cout ++ out ∧
        ∀ mark, mark = Line.monitoringHeader ∨ mark = Line.analysisHeader →
          marksBetweenPrompts mark out = (1, List.replicate k 2 ++ [0]) := by
  intro k
  induction k with
  | zero =>
    intro i w hi hmax
    obtain ⟨out, he, hp, hc⟩ := round_cout RAND_MAX ss hs w
    refine ⟨out ++ [.continuePrompt],
      (((((MachineHealthMonitor.predictMaintenance ⟨ss⟩
        (MachineHealthMonitor.monitor ⟨ss⟩ w)).print .logsSaved).print .blank).print
          .stars).print .continuePrompt), ?_, ?_, ?_, ?_⟩
    · intro h
      subst h
      exact loop_block ⟨ss⟩ i w (by omega) (by omega)
    · intro h
      cases tail with
      | nil => exact absurd rfl h
      | cons c rest =>
        have hc1 : c ≠ 1 := fun h1 => ht rest (by rw [h1])
        exact loop_stop ⟨ss⟩ i c rest w (by omega) (by omega) hc1
    · simp only [World.print] at he ⊢
      rw [he, List.append_assoc]
    · intro mark hmark
      rw [marks_append mark out _ hp, hc mark hmark]
      simp [marksBetweenPrompts]
  | succ k ih =>
    intro i w hi hmax
    obtain ⟨out, he, hp, hc⟩ := round_cout RAND_MAX ss hs w
    obtain ⟨out2, he2, hp2, hc2⟩ := cycle_cout RAND_MAX ss hs
      (((((MachineHealthMonitor.predictMaintenance ⟨ss⟩
        (MachineHealthMonitor.monitor ⟨ss⟩ w)).print .logsSaved).print .blank).print
          .stars).print .continuePrompt)
    obtain ⟨out3, w', h1, h2, he3, hm3⟩ := ih (i + 1)
      (MachineHealthMonitor.predictMaintenance ⟨ss⟩ (MachineHealthMonitor.monitor ⟨ss⟩
        (((((MachineHealthMonitor.predictMaintenance ⟨ss⟩
          (MachineHealthMonitor.monitor ⟨ss⟩ w)).print .logsSaved).print .blank).print
            .stars).print .continuePrompt))) (by omega) (by omega)
    have hstep : main.loop ⟨ss⟩ i (List.replicate (k + 1) 1 ++ tail) w
        = main.loop ⟨ss⟩ (i + 1) (List.replicate k 1 ++ tail)
            (MachineHealthMonitor.predictMaintenance ⟨ss⟩ (MachineHealthMonitor.monitor ⟨ss⟩
              (((((MachineHealthMonitor.predictMaintenance ⟨ss⟩
                (MachineHealthMonitor.monitor ⟨ss⟩ w)).print .logsSaved).print .blank).print
                  .stars).print .continuePrompt))) := by
      rw [List.replicate_succ, List.cons_append]
      exact loop_continue ⟨ss⟩ i _ w (by omega) (by omega)
    refine ⟨out ++ (.continuePrompt :: (out2 ++ out3)), w', ?_, ?_, ?_, ?_⟩
    · intro h
      rw [hstep]
      exact h1 h
    · intro h
      rw [hstep]
      exact h2 h
    · rw [he3, he2]
      simp only [World.print] at he ⊢
      rw [he]
      simp [List.append_assoc]
    · intro mark hmark
      rw [marks_append mark out _ hp, hc mark hmark, marks_prompt,
        marks_append mark out2 _ hp2, hc2 mark hmark, hm3 mark hmark]
      simp [List.replicate_succ]

/-- The first iterations of the loop, which do not prompt. -/
theorem loop_from (RAND_MAX : Nat) (ss : List Sensor)
    (hs : ∀ s ∈ ss, ProgramSensor RAND_MAX s) (tail : List Int)
    (ht : ∀ rest, tail ≠ 1 :: rest) (k : Nat) (hk : k + 6 ≤ INT_MAX) :
    ∀ (j i : Nat) (w : World), i + j = 5 →
      ∃ out w',
        (tail = [] →
          main.loop ⟨ss⟩ i (List.replicate k 1 ++ tail) w = .awaitingInput w') ∧
        (tail ≠ [] →
          main.loop ⟨ss⟩ i (List.replicate k 1 ++ tail) w = .returned 0 w') ∧
        w'.cout = w.cout ++ out ∧
        ∀ mark, mark = Line.monitoringHeader ∨ mark = Line.analysisHeader →
          marksBetweenPrompts mark out = (1 + j, List.replicate k 2 ++ [0]) := by
  intro j
  induction j with
  | zero =>
    intro i w hi
    exact loop_steady RAND_MAX ss hs tail ht k i w (by omega) (by omega)
  | succ j ih =>
    intro i w hi
    obtain ⟨out, he, hp, hc⟩ := round_cout RAND_MAX ss hs w
    obtain ⟨out2, w', h1, h2, he2, hm2⟩ := ih (i + 1)
      ((((MachineHealthMonitor.predictMaintenance ⟨ss⟩
        (MachineHealthMonitor.monitor ⟨ss⟩ w)).print .logsSaved).print .blank).print .stars)
      (by omega)
    have hstep := loop_warm ⟨ss⟩ i (List.replicate k 1 ++ tail) w (by omega) (by omega)
    refine ⟨out ++ out2, w', ?_, ?_, ?_, ?_⟩
    · intro h
      rw [hstep]
      exact h1 h
    · intro h
      rw [hstep]
      exact h2 h
    · rw [he2, he, List.append_assoc]
    · intro mark hmark
      rw [marks_append mark out _ hp, hc mark hmark, hm2 mark hmark]
      simp
      omega

/-- The run of `main` on `k` answers 1 followed by `tail`, which is empty or starts
with an answer other than 1. -/
theorem main_run (RAND_MAX : Nat) (tail : List Int) (ht : ∀ rest, tail ≠ 1 :: rest)
    (k : Nat) (hk : k + 6 ≤ INT_MAX) (w : World) :
    ∃ out w',
      (tail = [] →
        main RAND_MAX (List.replicate k 1 ++ tail) w = .ok (.awaitingInput w')) ∧
      (tail ≠ [] →
        main RAND_MAX (List.replicate k 1 ++ tail) w = .ok (.returned 0 w')) ∧
      w'.cout = w.cout ++ out ∧
      ∀ mark, mark = Line.monitoringHeader ∨ mark = Line.analysisHeader →
        marksBetweenPrompts mark out = (6, List.replicate k 2 ++ [0]) := by
  obtain ⟨out, w', h1, h2, he, hm⟩ :=
    loop_from RAND_MAX _ (main_sensors_program RAND_MAX) tail ht k hk 5 0 w rfl
  have hmain : ∀ inputs, main RAND_MAX inputs w
      = .ok (main.loop ⟨[LoggingSensor (TemperatureSensor RAND_MAX) 75.0,
              LoggingSensor (PressureSensor RAND_MAX) 240.0,
              LoggingSensor (VibrationSensor RAND_MAX) 1.2]⟩ 0 inputs w) := by
    intro inputs
    simp [main, main_setup, bind, Except.bind, pure, Except.pure]
  refine ⟨out, w', ?_, ?_, he, ?_⟩
  · intro h
    rw [hmain, h1 h]
  · intro h
    rw [hmain, h2 h]
  · intro mark hmark
    rw [hm mark hmark]

/-- C8, as the code has it: for `k` answers 1 (with `k + 6` within the range of the
`int` counter), `main` runs 6 cycles before the first prompt and 2 cycles after each
answer 1 (one in the branch of the answer, one at the start of the next iteration)
before the next prompt; it then waits for the next answer, or, on an answer other
than 1, returns 0 with no further cycle.  Cycles are counted by the header lines of
`monitor` and of `predictMaintenance`. -/
theorem main_prompt_schedule (RAND_MAX : Nat) (k : Nat) (w : World)
    (hk : k + 6 ≤ INT_MAX) :
    (∃ out w',
      main RAND_MAX (List.replicate k 1) w = .ok (.awaitingInput w') ∧
      w'.cout = w.cout ++ out ∧
      marksBetweenPrompts .monitoringHeader out = (6, List.replicate k 2 ++ [0]) ∧
      marksBetweenPrompts .analysisHeader out = (6, List.replicate k 2 ++ [0])) ∧
    (∀ (c : Int) (rest : List Int), c ≠ 1 →
      ∃ out w',
        main RAND_MAX (List.replicate k 1 ++ c :: rest) w = .ok (.returned 0 w') ∧
        w'.cout = w.cout ++ out ∧
        marksBetweenPrompts .monitoringHeader out = (6, List.replicate k 2 ++ [0]) ∧
        marksBetweenPrompts .analysisHeader out = (6, List.replicate k 2 ++ [0])) := by
  constructor
  · obtain ⟨out, w', h1, _, he, hm⟩ :=
      main_run RAND_MAX [] (fun rest h => by cases h) k hk w
    refine ⟨out, w', ?_, he, hm _ (Or.inl rfl), hm _ (Or.inr rfl)⟩
    simpa using h1 rfl
  · intro c rest hc
    obtain ⟨out, w', _, h2, he, hm⟩ :=
      main_run RAND_MAX (c :: rest)
        (fun r h => hc (List.cons.inj h).1) k hk w
    exact ⟨out, w', h2 (by simp), he, hm _ (Or.inl rfl), hm _ (Or.inr rfl)⟩

/-- C8 as stated fails: on the answers 1, 0 the run has 6 cycles before the first
prompt and 2 cycles between the two prompts, not 5 and 5. -/
theorem main_prompt_every_five_fails :
    ∃ w',
      main 2147483647 [1, 0] (World.initial (fun _ => 0)) = .ok (.returned 0 w') ∧
      marksBetweenPrompts .monitoringHeader w'.cout = (6, [2, 0]) ∧
      marksBetweenPrompts .monitoringHeader w'.cout ≠ (5, [5, 0]) := by
  obtain ⟨out, w', _, h2, he, hm⟩ :=
    main_run 2147483647 [0] (fun r h => by cases h) 1 (by decide)
      (World.initial (fun _ => 0))
  have hc : w'.cout = out := by simpa [World.initial] using he
  refine ⟨w', by simpa using h2 (by simp), ?_, ?_⟩
  · rw [hc, hm _ (Or.inl rfl)]
    rfl
  · rw [hc, hm _ (Or.inl rfl)]
    decide

theorem main_prompt_schedule_witness :
    1 + 6 ≤ INT_MAX ∧
    ∃ out w',
      main 32767 (List.replicate 1 1 ++ 2 :: [1, 1]) (World.initial (fun n => 1000 * n))
        = .ok (.returned 0 w') ∧
      w'.cout = (World.initial (fun n => 1000 * n)).cout ++ out ∧
      marksBetweenPrompts .monitoringHeader out = (6, List.replicate 1 2 ++ [0]) ∧
      marksBetweenPrompts .analysisHeader out = (6, List.replicate 1 2 ++ [0]) :=
  ⟨by decide,
    (main_prompt_schedule 32767 1 (World.initial (fun n => 1000 * n)) (by decide)).2
      2 [1, 1] (by decide)⟩

theorem readData_range_witness :
    0 < 32767 ∧
    (World.initial (fun _ => 12345)).randSeq (World.initial (fun _ => 12345)).randCalls
      ≤ 32767 ∧
    (60.0 ≤ ((TemperatureSensor 32767).readData (World.initial (fun _ => 12345))).1 ∧
      ((TemperatureSensor 32767).readData (World.initial (fun _ => 12345))).1 ≤ 80.0) ∧
    (200.0 ≤ ((PressureSensor 32767).readData (World.initial (fun _ => 12345))).1 ∧
      ((PressureSensor 32767).readData (World.initial (fun _ => 12345))).1 ≤ 250.0) ∧
    (0.5 ≤ ((VibrationSensor 32767).readData (World.initial (fun _ => 12345))).1 ∧
      ((VibrationSensor 32767).readData (World.initial (fun _ => 12345))).1 ≤ 1.5) :=
  ⟨by decide, by decide,
    (readData_range 32767 (World.initial (fun _ => 12345)) (by decide) (by decide)).1,
    (readData_range 32767 (World.initial (fun _ => 12345)) (by decide) (by decide)).2.1,
    (readData_range 32767 (World.initial (fun _ => 12345)) (by decide) (by decide)).2.2.1⟩

theorem monitor_in_insertion_order_witness :
    (∀ s ∈ [LoggingSensor (TemperatureSensor 32767) 75.0, PressureSensor 32767,
              LoggingSensor (TemperatureSensor 32767) 70.0],
        ProgramSensor 32767 s) ∧
    ([LoggingSensor (TemperatureSensor 32767) 75.0, PressureSensor 32767,
        LoggingSensor (TemperatureSensor 32767) 70.0].foldl
          MachineHealthMonitor.addSensor MachineHealthMonitor.new).sensors
      = [LoggingSensor (TemperatureSensor 32767) 75.0, PressureSensor 32767,
          LoggingSensor (TemperatureSensor 32767) 70.0] ∧
    (([LoggingSensor (TemperatureSensor 32767) 75.0, PressureSensor 32767,
        LoggingSensor (TemperatureSensor 32767) 70.0].foldl
          MachineHealthMonitor.addSensor MachineHealthMonitor.new).monitor
        (World.initial (fun n => 1000 * n))).randCalls
      = (World.initial (fun n => 1000 * n)).randCalls + 3 ∧
    ([⟨fun w => (42.0, w), "Humidity"⟩, ⟨fun w => (42.0, w), "Humidity"⟩].foldl
        MachineHealthMonitor.addSensor MachineHealthMonitor.new).sensors
      = [⟨fun w => (42.0, w), "Humidity"⟩, ⟨fun w => (42.0, w), "Humidity"⟩] := by
  have hs : ∀ s ∈ [LoggingSensor (TemperatureSensor 32767) 75.0, PressureSensor 32767,
      LoggingSensor (TemperatureSensor 32767) 70.0], ProgramSensor 32767 s := by
    intro s h
    simp only [List.mem_cons, List.mem_singleton, List.not_mem_nil, or_false] at h
    rcases h with h | h | h <;> subst h
    · exact .logging _ _ (.base _ (Or.inl rfl))
    · exact .base _ (Or.inr (Or.inl rfl))
    · exact .logging _ _ (.base _ (Or.inl rfl))
  exact ⟨hs, (monitor_in_insertion_order 32767 _ (World.initial (fun n => 1000 * n))).1,
    ((monitor_in_insertion_order 32767 _
      (World.initial (fun n => 1000 * n))).2.2.2.2.2.2 hs).2.1,
    (monitor_in_insertion_order 32767
      [⟨fun w => (42.0, w), "Humidity"⟩, ⟨fun w => (42.0, w), "Humidity"⟩]
      (World.initial (fun _ => 0))).1⟩

theorem LoggingSensor_alert_iff_witness :
    ((LoggingSensor ⟨fun w => (75.0, w), "Temperature"⟩ 75.0).readData
        (World.initial (fun _ => 0))).2.cout = [] ∧
    ((LoggingSensor ⟨fun w => (75.0001, w), "Temperature"⟩ 75.0).readData
        (World.initial (fun _ => 0))).2.cout
      = [] ++ [.alert "Temperature" 75.0001 75.0] :=
  ⟨(LoggingSensor_alert_iff 32767 ⟨fun w => (75.0, w), "Temperature"⟩ 75.0
      (World.initial (fun _ => 0))).2.2.1 rfl,
    (LoggingSensor_alert_iff 32767 ⟨fun w => (75.0001, w), "Temperature"⟩ 75.0
      (World.initial (fun _ => 0))).1 (by norm_num)⟩

theorem predictMaintenance_rule_witness :
    (∀ s ∈ [LoggingSensor (TemperatureSensor 32767) 75.0,
              LoggingSensor (PressureSensor 32767) 240.0,
              LoggingSensor (VibrationSensor 32767) 1.2],
        ProgramSensor 32767 s) ∧
    ∃ out,
      (MachineHealthMonitor.predictMaintenance
          ⟨[LoggingSensor (TemperatureSensor 32767) 75.0,
            LoggingSensor (PressureSensor 32767) 240.0,
            LoggingSensor (VibrationSensor 32767) 1.2]⟩
          (World.initial (fun n => 1000 * n))).cout
        = (World.initial (fun n => 1000 * n)).cout ++ [.analysisHeader] ++ out ∧
      (out.filter Line.isPrediction).length = 3 := by
  obtain ⟨out, h1, _, h3, _⟩ :=
    predictMaintenance_rule.2.2.2.2.1 32767 _ (World.initial (fun n => 1000 * n))
      (main_sensors_program 32767)
  exact ⟨main_sensors_program 32767, out, h1, h3⟩

end OOPSProject
